import Mathlib

/-!
# st: a URL shortener (st.go)

A shallow embedding of the request handler of `st.go` and of the functions it
calls, followed by the properties of the add-form / add-submit / redirect
endpoints.

Modelling choices.

* The handler closure mutates two pieces of state: the map `csrfTokens` and the
  `links` table behind the `*sql.DB` handle.  Both are passed explicitly
  (`State`) and returned.
* What the outside world decides for one request is an explicit input (`Env`):
  the outcome of `rand.Read` and what the database engine does with the
  statement of this request.
* `log.Printf` output is kept as a list of structured log lines, one constructor
  per call site.
* The SQL engine and the standard library are not part of the program; the two
  statements the program runs, Go maps, `url.Values.Get`, `strings.TrimPrefix`
  and `base64.StdEncoding` are given their documented meaning.
-/

namespace St

/-! ## Go values -/

/-- Go `error` values met in the program (`nil` is `none` of `Option GoError`). -/
inductive GoError where
  /-- the random source could not be read -/
  | randUnavailable
  /-- the database engine could not run the statement -/
  | storageFailure
  /-- UNIQUE constraint failed: links.name -/
  | uniqueConstraint
  deriving DecidableEq, Repr

/-- A Go `map[string]bool`, as the list of its entries. -/
abbrev GoMap := List (String × Bool)

/-- Map read `m[k]`: the zero value `false` when the key is absent. -/
def GoMap.get (m : GoMap) (k : String) : Bool :=
  match m.lookup k with
  | some v => v
  | none => false

/-- Map delete `delete(m, k)`. -/
def GoMap.delete (m : GoMap) (k : String) : GoMap :=
  m.filter (fun e => e.1 != k)

/-- Map write `m[k] = v`. -/
def GoMap.set (m : GoMap) (k : String) (v : Bool) : GoMap :=
  (k, v) :: GoMap.delete m k

/-- Parsed form values, `url.Values` (a `map[string][]string`). -/
abbrev Values := List (String × List String)

/-- The first value of `key`, or the empty string: `url.Values.Get`. -/
def Values.Get (v : Values) (key : String) : String :=
  match v.lookup key with
  | some (x :: _) => x
  | _ => ""

/-- Drop the leading `pre` of `s` when there is one: `strings.TrimPrefix`. -/
def TrimPrefix (s pre : String) : String :=
  if pre.data.isPrefixOf s.data then String.mk (s.data.drop pre.data.length) else s

/-! ## base64.StdEncoding -/

/-- The standard base64 alphabet of RFC 4648. -/
def encodeStd : String :=
  "ABCDEFGHIJKLMNOPQRSTUVWXYZabcdefghijklmnopqrstuvwxyz0123456789+/"

/-- The alphabet character of a 6-bit value. -/
def b64Char (i : Nat) : Char :=
  encodeStd.data.getD (i % 64) 'A'

/-- Encode a byte sequence three bytes at a time, padding the tail with `=`. -/
def encodeBytes : List Nat → List Char
  | [] => []
  | [a] =>
      let n := a * 65536
      [b64Char (n / 262144), b64Char (n / 4096), '=', '=']
  | [a, b] =>
      let n := a * 65536 + b * 256
      [b64Char (n / 262144), b64Char (n / 4096), b64Char (n / 64), '=']
  | a :: b :: c :: rest =>
      let n := a * 65536 + b * 256 + c
      b64Char (n / 262144) :: b64Char (n / 4096) :: b64Char (n / 64) :: b64Char n
        :: encodeBytes rest

/-- Rendering of `base64.StdEncoding.EncodeToString`. -/
def EncodeToString (src : List Nat) : String :=
  String.mk (encodeBytes src)

/-! ## The link store -/

/-- One row of the table `links (name text not null primary key, url text not null)`. -/
abbrev Row := String × String

/-- The table `links`, rows in insertion order. -/
abbrev Links := List Row

/-- The primary key of `links`: no two rows have the same name. -/
def PrimaryKey (db : Links) : Prop :=
  (db.map Prod.fst).Nodup

instance (db : Links) : Decidable (PrimaryKey db) :=
  inferInstanceAs (Decidable (List.Nodup _))

/-- What the database engine does with the statement of one request. -/
inductive Storage where
  /-- the statement runs -/
  | up
  /-- the call is refused: `db.Exec` and `db.Query` return an error -/
  | down
  /-- the statement is accepted and fails while it is stepped: `db.Exec` returns
  an error; `db.Query` returns rows whose `rows.Next()` is false, the error
  staying in `rows.Err()` -/
  | failsOnStep
  deriving DecidableEq, Repr

/-- Every row has a non-empty url.  The handler inserts no other row (it refuses
an empty url before it calls addLink), and the lookup reads the empty url as
"not found". -/
def UrlsNonEmpty (db : Links) : Prop :=
  ∀ r ∈ db, r.2 ≠ ""

instance (db : Links) : Decidable (UrlsNonEmpty db) :=
  inferInstanceAs (Decidable (∀ r ∈ db, r.2 ≠ ""))

/-- Whether the table has a row for `name`. -/
def hasRow (db : Links) (name : String) : Bool :=
  db.any (fun r => r.1 == name)

/-- Statement `INSERT INTO links (name, url) VALUES (?, ?)` run by `db.Exec`:
the error and the table afterwards. -/
def execInsert (st : Storage) (db : Links) (name url : String) : Option GoError × Links :=
  match st with
  | Storage.up =>
      if hasRow db name then (some GoError.uniqueConstraint, db)
      else (none, db ++ [(name, url)])
  | _ => (some GoError.storageFailure, db)

/-- Statement `SELECT url FROM links WHERE name = ?` run by `db.Query`: the
rows that `rows.Next()` reaches, and the error of `db.Query`.  A failure while
the statement is stepped ends the rows without an error here: the program does
not read `rows.Err()`. -/
def querySelect (st : Storage) (db : Links) (name : String) : List String × Option GoError :=
  match st with
  | Storage.up => ((db.filter (fun r => r.1 == name)).map Prod.snd, none)
  | Storage.down => ([], some GoError.storageFailure)
  | Storage.failsOnStep => ([], none)

/-! ## Log lines -/

/-- The `log.Printf` call sites of the program, with their arguments. -/
inductive LogLine where
  /-- Line printed as "Handling request at path %s" -/
  | handling (path : String)
  /-- Line printed as "Error generating CSRF token: %s" -/
  | tokenError (err : GoError)
  /-- Line printed as "Error parsing form values: %s" -/
  | parseError
  /-- Line printed as "csrf token: %s" -/
  | csrfToken (token : String)
  /-- Line printed as "valid tokens: %v" -/
  | validTokens (tokens : GoMap)
  /-- Line printed as "adding link %s (%s)" -/
  | addingLink (name url : String)
  /-- Line printed as "error adding link: %s" -/
  | addError (err : GoError)
  /-- Line printed as "fetching link" -/
  | fetching
  /-- Line printed by getLink on entry, "Fetching link %s" -/
  | fetchingLink (name : String)
  /-- Line printed by getLink when no row matches, "link not found" -/
  | notFound
  /-- Line printed as "error retrieving link: %s" -/
  | retrieveError (err : GoError)
  /-- Line printed as "Redirecting to %s for link %s" -/
  | redirecting (url name : String)
  deriving DecidableEq, Repr

/-- Whether a log line is the one getLink prints on entry. -/
def LogLine.isLookup : LogLine → Bool
  | LogLine.fetchingLink _ => true
  | _ => false

/-! ## The functions of st.go -/

/-- The text of the form page before the `%s` verb. -/
def pageHead : String :=
  "<!DOCTYPE html>\n<html>\n  <head>\n\t<title>st</title>\n  </head>\n  <body>\n\t<p>Add a link</p>\n\t<form action=\"/add\" method=\"POST\">\n\t  <div style=\"display: block\">\n\t\t<label for=\"url\">URL to shorten</label>\n\t\t<input type=\"text\" name=\"url\" id=\"url>\n\t  </div>\n\t  <div style=\"display:block\">\n\t\t<label for=\"name\">Link name (path will be /:name)</label>\n\t\t<input type=\"text\" name=\"name\" id=\"name\">\n\t  </div>\n\t  <input type=\"hidden\" name=\"csrftoken\" value=\""

/-- The text of the form page after the `%s` verb. -/
def pageTail : String :=
  "\">\n\t  <input type=\"submit\" value=\"Add link\">\n\t</form>\n  </body>\n</html>\n"

/-- Function `indexPageWithCsrfToken`: `fmt.Sprintf` puts the token in the place
of the only verb of the template. -/
def indexPageWithCsrfToken (token : String) : String :=
  pageHead ++ token ++ pageTail

/-- Function `addLink`: the error, and the table afterwards. -/
def addLink (st : Storage) (db : Links) (name url : String) : Option GoError × Links :=
  execInsert st db name url

/-- Function `getLink`: the url, the error, and the lines logged. -/
def getLink (st : Storage) (db : Links) (name : String) :
    String × Option GoError × List LogLine :=
  match querySelect st db name with
  | (_, some err) => ("", some err, [LogLine.fetchingLink name])
  | ([], none) => ("", none, [LogLine.fetchingLink name, LogLine.notFound])
  | (url :: _, none) => (url, none, [LogLine.fetchingLink name])

/-- Call `rand.Read(b)` on a zeroed buffer of `n` bytes: `src` is what the
random source delivers, `none` when it cannot be read. -/
def randRead (src : Option (List Nat)) (n : Nat) : List Nat × Option GoError :=
  match src with
  | none => (List.replicate n 0, some GoError.randUnavailable)
  | some bs => ((List.range n).map (fun i => bs.getD i 0 % 256), none)

/-- Function `generateToken`. -/
def generateToken (src : Option (List Nat)) : String × Option GoError :=
  match randRead src 32 with
  | (_, some err) => ("", some err)
  | (token, none) => (EncodeToString token, none)

/-! ## The request handler -/

/-- The fields of `http.Request` the handler reads.  `PostForm` is what
`req.ParseForm()` leaves in `req.PostForm`, `none` when it returns an error. -/
structure Request where
  Path : String
  Method : String
  PostForm : Option Values
  deriving DecidableEq, Repr

/-- What the outside world decides during one request. -/
structure Env where
  /-- the bytes the random source delivers, `none` when it cannot be read -/
  rand : Option (List Nat)
  /-- what the database engine does with the statement of this request -/
  storage : Storage
  deriving DecidableEq, Repr

/-- The `http.ResponseWriter`: headers, status code and body written. -/
structure Response where
  header : List (String × String)
  status : Nat
  body : String
  deriving DecidableEq, Repr

/-- The response before anything is written. -/
def Response.empty : Response :=
  ⟨[], 0, ""⟩

/-- Call `res.Header().Set(k, v)`. -/
def Response.Set (res : Response) (k v : String) : Response :=
  { res with header := (k, v) :: res.header.filter (fun e => e.1 != k) }

/-- Call `res.WriteHeader(code)`. -/
def Response.WriteHeader (res : Response) (code : Nat) : Response :=
  { res with status := code }

/-- Call `res.Write([]byte(s))`. -/
def Response.Write (res : Response) (s : String) : Response :=
  { res with body := res.body ++ s }

/-- Call `res.Header().Get(k)`. -/
def Response.Get (res : Response) (k : String) : String :=
  match res.header.lookup k with
  | some v => v
  | none => ""

/-- The state the handler closure captures. -/
structure State where
  csrfTokens : GoMap
  db : Links
  deriving DecidableEq, Repr

/-- The outcome of one request. -/
structure Outcome where
  state : State
  res : Response
  log : List LogLine
  deriving DecidableEq, Repr

/-- The function registered with `http.HandleFunc("/", ...)` in `main`. -/
def handler (env : Env) (s : State) (req : Request) : Outcome :=
  let log0 := [LogLine.handling req.Path]
  let res := Response.empty
  if req.Path = "/favicon.ico" then
    ⟨s, res.WriteHeader 404, log0⟩
  else if req.Path = "/add" then
    if req.Method = "GET" then
      match generateToken env.rand with
      | (_, some err) =>
          ⟨s, res.WriteHeader 500, log0 ++ [LogLine.tokenError err]⟩
      | (token, none) =>
          ⟨{ s with csrfTokens := s.csrfTokens.set token true },
            (((res.Set "Content-Type" "text/html").WriteHeader 200).Write
              (indexPageWithCsrfToken token)),
            log0⟩
    else if req.Method = "POST" then
      match req.PostForm with
      | none =>
          ⟨s, (res.WriteHeader 400).Write "unable to parse form values",
            log0 ++ [LogLine.parseError]⟩
      | some form =>
          let linkUrl := form.Get "url"
          let linkName := form.Get "name"
          let csrfToken := form.Get "csrftoken"
          if s.csrfTokens.get csrfToken != true then
            ⟨s, (res.WriteHeader 400).Write "invalid csrf token",
              log0 ++ [LogLine.csrfToken csrfToken, LogLine.validTokens s.csrfTokens]⟩
          else
            let tokens := s.csrfTokens.delete csrfToken
            if linkUrl = "" ∨ linkName = "" then
              ⟨{ s with csrfTokens := tokens },
                (res.WriteHeader 400).Write "must provide both link name and url", log0⟩
            else
              let log1 := log0 ++ [LogLine.addingLink linkName linkUrl]
              match addLink env.storage s.db linkName linkUrl with
              | (some err, db) =>
                  ⟨⟨tokens, db⟩, (res.WriteHeader 500).Write "error adding link",
                    log1 ++ [LogLine.addError err]⟩
              | (none, db) =>
                  ⟨⟨tokens, db⟩, (res.WriteHeader 200).Write "added link", log1⟩
    else
      ⟨s, (res.WriteHeader 400).Write "unsupported method", log0⟩
  else
    let log1 := log0 ++ [LogLine.fetching]
    let linkName := TrimPrefix req.Path "/"
    match getLink env.storage s.db linkName with
    | (_, some err, lg) =>
        ⟨s, (res.WriteHeader 500).Write "error retrieving link",
          log1 ++ lg ++ [LogLine.retrieveError err]⟩
    | (linkUrl, none, lg) =>
        if linkUrl = "" then
          ⟨s, (res.WriteHeader 404).Write "link not found", log1 ++ lg⟩
        else
          ⟨s, (res.Set "Location" linkUrl).WriteHeader 301,
            log1 ++ lg ++ [LogLine.redirecting linkUrl linkName]⟩

/-! ## Runs of requests -/

/-- One request together with what the outside world decides during it. -/
structure Input where
  env : Env
  req : Request
  deriving DecidableEq, Repr

/-- The state after serving one request. -/
def step (s : State) (i : Input) : State :=
  (handler i.env s i.req).state

/-- The state after serving a sequence of requests, one after the other. -/
def run (s : State) (is : List Input) : State :=
  is.foldl step s

/-- The request is a POST /add whose form parses and carries `csrftoken=t`, that
is, one that reaches the token check with the token `t`. -/
def carries (t : String) (i : Input) : Prop :=
  i.req.Path = "/add" ∧ i.req.Method = "POST" ∧
    i.req.PostForm.map (fun form => form.Get "csrftoken") = some t

instance (t : String) (i : Input) : Decidable (carries t i) :=
  inferInstanceAs (Decidable (_ ∧ _))

/-- The request is a GET /add during which `generateToken` returns `t`. -/
def issues (t : String) (i : Input) : Prop :=
  i.req.Path = "/add" ∧ i.req.Method = "GET" ∧ generateToken i.env.rand = (t, none)

instance (t : String) (i : Input) : Decidable (issues t i) :=
  inferInstanceAs (Decidable (_ ∧ _))

/-- The hidden form field that carries `token`, as it is written in the page. -/
def hiddenField (token : String) : String :=
  "<input type=\"hidden\" name=\"csrftoken\" value=\"" ++ token ++ "\">"

/-- The text of the form page before the hidden field. -/
def pageBeforeField : String :=
  "<!DOCTYPE html>\n<html>\n  <head>\n\t<title>st</title>\n  </head>\n  <body>\n\t<p>Add a link</p>\n\t<form action=\"/add\" method=\"POST\">\n\t  <div style=\"display: block\">\n\t\t<label for=\"url\">URL to shorten</label>\n\t\t<input type=\"text\" name=\"url\" id=\"url>\n\t  </div>\n\t  <div style=\"display:block\">\n\t\t<label for=\"name\">Link name (path will be /:name)</label>\n\t\t<input type=\"text\" name=\"name\" id=\"name\">\n\t  </div>\n\t  "

/-- The text of the form page after the hidden field. -/
def pageAfterField : String :=
  "\n\t  <input type=\"submit\" value=\"Add link\">\n\t</form>\n  </body>\n</html>\n"

/-! ## Go maps -/

theorem GoMap.lookup_delete_self (m : GoMap) (k : String) :
    (GoMap.delete m k).lookup k = none := by
  induction m with
  | nil => rfl
  | cons e m ih =>
    obtain ⟨a, b⟩ := e
    by_cases h : a = k
    · simpa [GoMap.delete, List.filter_cons, h] using ih
    · have hk : (k == a) = false := by simpa using fun h' => h h'.symm
      simpa [GoMap.delete, List.filter_cons, h, List.lookup_cons, hk] using ih

theorem GoMap.lookup_delete_ne (m : GoMap) {k k' : String} (h : k' ≠ k) :
    (GoMap.delete m k).lookup k' = m.lookup k' := by
  induction m with
  | nil => rfl
  | cons e m ih =>
    obtain ⟨a, b⟩ := e
    by_cases ha : a = k
    · subst ha
      have hk : (k' == a) = false := by simpa using h
      simpa [GoMap.delete, List.filter_cons, List.lookup_cons, hk] using ih
    · by_cases hk : k' = a
      · simp [GoMap.delete, List.filter_cons, ha, List.lookup_cons, hk]
      · have hk' : (k' == a) = false := by simpa using hk
        simpa [GoMap.delete, List.filter_cons, ha, List.lookup_cons, hk'] using ih

theorem GoMap.get_delete_self (m : GoMap) (k : String) :
    (GoMap.delete m k).get k = false := by
  simp [GoMap.get, GoMap.lookup_delete_self]

theorem GoMap.get_delete_ne (m : GoMap) {k k' : String} (h : k' ≠ k) :
    (GoMap.delete m k).get k' = m.get k' := by
  simp [GoMap.get, GoMap.lookup_delete_ne m h]

theorem GoMap.get_set_self (m : GoMap) (k : String) (v : Bool) :
    (GoMap.set m k v).get k = v := by
  simp [GoMap.get, GoMap.set, List.lookup_cons]

theorem GoMap.get_set_ne (m : GoMap) {k k' : String} (v : Bool) (h : k' ≠ k) :
    (GoMap.set m k v).get k' = m.get k' := by
  have hk : (k' == k) = false := by simpa using h
  simp [GoMap.get, GoMap.set, List.lookup_cons, hk, GoMap.lookup_delete_ne m h]

/-! ## The token check of POST /add -/

theorem handler_post_invalid (env : Env) (s : State) (req : Request) (form : Values)
    (hpath : req.Path = "/add") (hmeth : req.Method = "POST")
    (hform : req.PostForm = some form)
    (htok : s.csrfTokens.get (form.Get "csrftoken") = false) :
    handler env s req =
      ⟨s, ⟨[], 400, "invalid csrf token"⟩,
        [LogLine.handling "/add", LogLine.csrfToken (form.Get "csrftoken"),
          LogLine.validTokens s.csrfTokens]⟩ := by
  simp [handler, hpath, hmeth, hform, htok, Response.WriteHeader, Response.Write,
    Response.empty]

theorem handler_post_valid_tokens (env : Env) (s : State) (req : Request) (form : Values)
    (hpath : req.Path = "/add") (hmeth : req.Method = "POST")
    (hform : req.PostForm = some form)
    (htok : s.csrfTokens.get (form.Get "csrftoken") = true) :
    (handler env s req).state.csrfTokens = s.csrfTokens.delete (form.Get "csrftoken") := by
  simp only [handler, hpath, hmeth, hform, htok]
  by_cases he : form.Get "url" = "" ∨ form.Get "name" = ""
  · simp [he]
  · rcases hadd : addLink env.storage s.db (form.Get "name") (form.Get "url") with ⟨_ | err, db⟩ <;>
      simp [he, hadd]

theorem handler_post_valid_body (env : Env) (s : State) (req : Request) (form : Values)
    (hpath : req.Path = "/add") (hmeth : req.Method = "POST")
    (hform : req.PostForm = some form)
    (htok : s.csrfTokens.get (form.Get "csrftoken") = true) :
    (handler env s req).res.body ≠ "invalid csrf token" := by
  simp only [handler, hpath, hmeth, hform, htok]
  by_cases he : form.Get "url" = "" ∨ form.Get "name" = ""
  · simp [he, Response.WriteHeader, Response.Write, Response.empty]
  · rcases hadd : addLink env.storage s.db (form.Get "name") (form.Get "url") with ⟨_ | err, db⟩ <;>
      simp [he, hadd, Response.WriteHeader, Response.Write, Response.empty]

/-- C2: a POST /add whose form parses and whose csrftoken value is not in the
token registry is answered with status 400 (body "invalid csrf token"), whatever
the url and name fields are, and the state is unchanged: the link store and the
token registry are the ones before the request. -/
theorem post_add_invalid_token_rejected (env : Env) (s : State) (req : Request)
    (form : Values) (hpath : req.Path = "/add") (hmeth : req.Method = "POST")
    (hform : req.PostForm = some form)
    (htok : s.csrfTokens.get (form.Get "csrftoken") = false) :
    (handler env s req).res.status = 400 ∧
      (handler env s req).res.body = "invalid csrf token" ∧
      (handler env s req).state = s ∧
      (handler env s req).state.db = s.db ∧
      (handler env s req).state.csrfTokens = s.csrfTokens := by
  rw [handler_post_invalid env s req form hpath hmeth hform htok]
  exact ⟨rfl, rfl, rfl, rfl, rfl⟩

/-- Witness of C2: a consumed-or-never-issued token "t9" against a registry that
holds "t1", with well-formed name and url. -/
theorem post_add_invalid_token_rejected_witness :
    (handler ⟨none, Storage.up⟩ ⟨[("t1", true)], [("a", "http://a.example")]⟩
        ⟨"/add", "POST", some [("url", ["http://b.example"]), ("name", ["b"]),
          ("csrftoken", ["t9"])]⟩).res.status = 400 ∧
      (handler ⟨none, Storage.up⟩ ⟨[("t1", true)], [("a", "http://a.example")]⟩
        ⟨"/add", "POST", some [("url", ["http://b.example"]), ("name", ["b"]),
          ("csrftoken", ["t9"])]⟩).state =
        ⟨[("t1", true)], [("a", "http://a.example")]⟩ :=
  have h := post_add_invalid_token_rejected ⟨none, Storage.up⟩
    ⟨[("t1", true)], [("a", "http://a.example")]⟩
    ⟨"/add", "POST", some [("url", ["http://b.example"]), ("name", ["b"]),
      ("csrftoken", ["t9"])]⟩
    [("url", ["http://b.example"]), ("name", ["b"]), ("csrftoken", ["t9"])]
    rfl rfl rfl (by decide)
  ⟨h.1, h.2.2.1⟩

/-- C3: a POST /add that carries a currently valid token and whose url field or
name field is empty (or absent, which reads as empty) is answered with status
400, and the link store after the request is the link store before it. -/
theorem post_add_empty_field_rejected (env : Env) (s : State) (req : Request)
    (form : Values) (hpath : req.Path = "/add") (hmeth : req.Method = "POST")
    (hform : req.PostForm = some form)
    (htok : s.csrfTokens.get (form.Get "csrftoken") = true)
    (hempty : form.Get "url" = "" ∨ form.Get "name" = "") :
    (handler env s req).res.status = 400 ∧ (handler env s req).state.db = s.db := by
  simp [handler, hpath, hmeth, hform, htok, hempty, Response.WriteHeader, Response.Write,
    Response.empty]

/-- Witness of C3: valid token "t1", a url, and no name field at all. -/
theorem post_add_empty_field_rejected_witness :
    (handler ⟨none, Storage.up⟩ ⟨[("t1", true)], [("a", "http://a.example")]⟩
        ⟨"/add", "POST", some [("url", ["http://b.example"]),
          ("csrftoken", ["t1"])]⟩).res.status = 400 ∧
      (handler ⟨none, Storage.up⟩ ⟨[("t1", true)], [("a", "http://a.example")]⟩
        ⟨"/add", "POST", some [("url", ["http://b.example"]),
          ("csrftoken", ["t1"])]⟩).state.db = [("a", "http://a.example")] :=
  post_add_empty_field_rejected ⟨none, Storage.up⟩
    ⟨[("t1", true)], [("a", "http://a.example")]⟩
    ⟨"/add", "POST", some [("url", ["http://b.example"]), ("csrftoken", ["t1"])]⟩
    [("url", ["http://b.example"]), ("csrftoken", ["t1"])]
    rfl rfl rfl (by decide) (Or.inr (by decide))

/-- C9: a POST /add whose form parses and whose csrftoken is in the registry
spends that token whatever the outcome (200, 400 for an empty field, 500 for a
failed insert): afterwards the token is absent from the registry, every other
token reads as before, and a further POST /add with the same token is answered
with status 400. -/
theorem post_add_spends_token (env : Env) (s : State) (req : Request) (form : Values)
    (hpath : req.Path = "/add") (hmeth : req.Method = "POST")
    (hform : req.PostForm = some form)
    (htok : s.csrfTokens.get (form.Get "csrftoken") = true) :
    (handler env s req).state.csrfTokens.get (form.Get "csrftoken") = false ∧
      (∀ t : String, t ≠ form.Get "csrftoken" →
        (handler env s req).state.csrfTokens.get t = s.csrfTokens.get t) ∧
      (∀ (env2 : Env) (req2 : Request) (form2 : Values),
        req2.Path = "/add" → req2.Method = "POST" → req2.PostForm = some form2 →
        form2.Get "csrftoken" = form.Get "csrftoken" →
        (handler env2 (handler env s req).state req2).res.status = 400 ∧
          (handler env2 (handler env s req).state req2).state =
            (handler env s req).state) := by
  have hst := handler_post_valid_tokens env s req form hpath hmeth hform htok
  have hgone : (handler env s req).state.csrfTokens.get (form.Get "csrftoken") = false := by
    rw [hst]; exact GoMap.get_delete_self _ _
  refine ⟨hgone, ?_, ?_⟩
  · intro t ht
    rw [hst]; exact GoMap.get_delete_ne _ ht
  · intro env2 req2 form2 hp2 hm2 hf2 heq
    rw [handler_post_invalid env2 _ req2 form2 hp2 hm2 hf2 (by rw [heq]; exact hgone)]
    exact ⟨rfl, rfl⟩

/-- Witness of C9: the token "t1" is spent by a submission that is rejected with
500 because the name "a" is taken; "t2" stays valid. -/
theorem post_add_spends_token_witness :
    (handler ⟨none, Storage.up⟩ ⟨[("t1", true), ("t2", true)], [("a", "http://a.example")]⟩
        ⟨"/add", "POST", some [("url", ["http://b.example"]), ("name", ["a"]),
          ("csrftoken", ["t1"])]⟩).res.status = 500 ∧
      (handler ⟨none, Storage.up⟩ ⟨[("t1", true), ("t2", true)], [("a", "http://a.example")]⟩
        ⟨"/add", "POST", some [("url", ["http://b.example"]), ("name", ["a"]),
          ("csrftoken", ["t1"])]⟩).state.csrfTokens.get "t1" = false ∧
      (handler ⟨none, Storage.up⟩ ⟨[("t1", true), ("t2", true)], [("a", "http://a.example")]⟩
        ⟨"/add", "POST", some [("url", ["http://b.example"]), ("name", ["a"]),
          ("csrftoken", ["t1"])]⟩).state.csrfTokens.get "t2" = true :=
  have h := post_add_spends_token ⟨none, Storage.up⟩
    ⟨[("t1", true), ("t2", true)], [("a", "http://a.example")]⟩
    ⟨"/add", "POST", some [("url", ["http://b.example"]), ("name", ["a"]),
      ("csrftoken", ["t1"])]⟩
    [("url", ["http://b.example"]), ("name", ["a"]), ("csrftoken", ["t1"])]
    rfl rfl rfl (by decide)
  ⟨by decide, h.1, (h.2.1 "t2" (by decide)).trans (by decide)⟩

/-! ## The link store -/

theorem TrimPrefix_slash (name : String) : TrimPrefix ("/" ++ name) "/" = name := by
  have h1 : ("/" ++ name).data = '/' :: name.data := by
    rw [String.data_append]; rfl
  have h2 : ("/" : String).data = ['/'] := rfl
  simp [TrimPrefix, h1, h2, List.isPrefixOf]

theorem slash_append_inj {a b : String} (h : "/" ++ a = "/" ++ b) : a = b := by
  have h1 := congrArg String.data h
  rw [String.data_append, String.data_append] at h1
  exact String.ext (List.append_cancel_left h1)

theorem hasRow_eq_false {db : Links} {name : String} :
    hasRow db name = false ↔ ∀ r ∈ db, r.1 ≠ name := by
  simp [hasRow]

theorem hasRow_eq_true {db : Links} {name : String} :
    hasRow db name = true ↔ ∃ url, (name, url) ∈ db := by
  simp only [hasRow, List.any_eq_true, beq_iff_eq]
  constructor
  · rintro ⟨⟨a, b⟩, hm, rfl⟩
    exact ⟨b, hm⟩
  · rintro ⟨url, hm⟩
    exact ⟨(name, url), hm, rfl⟩

theorem filter_name_of_free {db : Links} {name : String} (h : hasRow db name = false) :
    db.filter (fun r => r.1 == name) = [] := by
  rw [List.filter_eq_nil_iff]
  intro r hr
  simpa using hasRow_eq_false.1 h r hr

theorem filter_name_of_mem {db : Links} {name url : String} (hpk : PrimaryKey db)
    (hm : (name, url) ∈ db) : db.filter (fun r => r.1 == name) = [(name, url)] := by
  induction db with
  | nil => cases hm
  | cons r db ih =>
    obtain ⟨a, b⟩ := r
    have hpk2 : a ∉ db.map Prod.fst ∧ PrimaryKey db := by
      simpa [PrimaryKey] using hpk
    rcases List.mem_cons.1 hm with heq | hin
    · cases heq
      have hfree : hasRow db name = false := by
        rw [hasRow_eq_false]
        intro r hr hname
        exact hpk2.1 (List.mem_map.2 ⟨r, hr, hname⟩)
      simp [List.filter_cons, filter_name_of_free hfree]
    · have hne : a ≠ name := by
        intro h
        exact hpk2.1 (List.mem_map.2 ⟨(name, url), hin, h.symm⟩)
      simpa [List.filter_cons, hne] using ih hpk2.2 hin

theorem getLink_of_free {db : Links} {name : String} (h : hasRow db name = false) :
    getLink Storage.up db name = ("", none, [LogLine.fetchingLink name, LogLine.notFound]) := by
  simp [getLink, querySelect, filter_name_of_free h]

theorem getLink_of_mem {db : Links} {name url : String} (hpk : PrimaryKey db)
    (hm : (name, url) ∈ db) :
    getLink Storage.up db name = (url, none, [LogLine.fetchingLink name]) := by
  simp [getLink, querySelect, filter_name_of_mem hpk hm]

theorem getLink_of_append {db : Links} {name url : String} (h : hasRow db name = false) :
    getLink Storage.up (db ++ [(name, url)]) name = (url, none, [LogLine.fetchingLink name]) := by
  simp [getLink, querySelect, List.filter_append, filter_name_of_free h, List.filter_cons]

theorem addLink_of_free {db : Links} {name : String} (url : String)
    (h : hasRow db name = false) :
    addLink Storage.up db name url = (none, db ++ [(name, url)]) := by
  simp [addLink, execInsert, h]

theorem addLink_of_taken (st : Storage) {db : Links} {name : String} (url : String)
    (h : hasRow db name = true) :
    addLink st db name url =
      (some (if st = Storage.up then GoError.uniqueConstraint else GoError.storageFailure),
        db) := by
  cases st <;> simp [addLink, execInsert, h]

/-- C4: store round trip.  On a store the engine can reach, for every table and
every pair (name, url) of strings, non-empty ones in particular, such that the
table has no row for name, addLink returns no error, adds the row, and a
following getLink of name returns (url, nil). -/
theorem addLink_then_getLink (db : Links) (name url : String)
    (hfree : hasRow db name = false) :
    (addLink Storage.up db name url).1 = none ∧
      (addLink Storage.up db name url).2 = db ++ [(name, url)] ∧
      (getLink Storage.up (addLink Storage.up db name url).2 name).1 = url ∧
      (getLink Storage.up (addLink Storage.up db name url).2 name).2.1 = none := by
  rw [addLink_of_free url hfree, getLink_of_append hfree]
  exact ⟨rfl, rfl, rfl, rfl⟩

/-- Witness of C4: the pair of the specification, foo and http://example.com,
added to a table that holds another link. -/
theorem addLink_then_getLink_witness :
    hasRow [("a", "http://a.example")] "foo" = false ∧
      (addLink Storage.up [("a", "http://a.example")] "foo" "http://example.com").1 = none ∧
      (getLink Storage.up (addLink Storage.up [("a", "http://a.example")] "foo"
        "http://example.com").2 "foo").1 = "http://example.com" :=
  have h := addLink_then_getLink [("a", "http://a.example")] "foo" "http://example.com"
    (by decide)
  ⟨by decide, h.1, h.2.2.1⟩

/-- C5, as stated, fails: the table has the row (foo, http://a.example), the
token t1 is valid, and a POST /add with name foo and an empty url is answered
with status 400, not 500: the check for empty fields comes before the insert. -/
theorem duplicate_post_empty_url_is_400 :
    ("foo", "http://a.example") ∈ ([("foo", "http://a.example")] : Links) ∧
      PrimaryKey [("foo", "http://a.example")] ∧
      GoMap.get [("t1", true)] "t1" = true ∧
      (handler ⟨none, Storage.up⟩ ⟨[("t1", true)], [("foo", "http://a.example")]⟩
        ⟨"/add", "POST", some [("url", [""]), ("name", ["foo"]),
          ("csrftoken", ["t1"])]⟩).res.status = 400 ∧
      (handler ⟨none, Storage.up⟩ ⟨[("t1", true)], [("foo", "http://a.example")]⟩
        ⟨"/add", "POST", some [("url", [""]), ("name", ["foo"]),
          ("csrftoken", ["t1"])]⟩).res.status ≠ 500 := by
  decide

/-- C5, amended: duplicate names are rejected, not overwritten.  For every table
that has a row (name, url0) and every url, addLink returns an error and the
table is unchanged, so that getLink of name still returns url0; through the
handler, a POST /add with a valid token and that name is never answered 200 and
leaves the table unchanged: it is answered 500 when the url and the name are
non-empty, and 400 when the url or the name is empty. -/
theorem duplicate_name_rejected (st : Storage) (env : Env) (s : State) (req : Request)
    (form : Values) (name url0 url : String)
    (hpk : PrimaryKey s.db) (hrow : (name, url0) ∈ s.db)
    (hpath : req.Path = "/add") (hmeth : req.Method = "POST")
    (hform : req.PostForm = some form)
    (htok : s.csrfTokens.get (form.Get "csrftoken") = true)
    (hname : form.Get "name" = name) :
    (addLink st s.db name url).1 ≠ none ∧
      (addLink st s.db name url).2 = s.db ∧
      getLink Storage.up (addLink st s.db name url).2 name =
        (url0, none, [LogLine.fetchingLink name]) ∧
      (handler env s req).res.status ≠ 200 ∧
      (handler env s req).state.db = s.db ∧
      (form.Get "url" ≠ "" → name ≠ "" → (handler env s req).res.status = 500) ∧
      (form.Get "url" = "" ∨ name = "" → (handler env s req).res.status = 400) := by
  subst hname
  have htaken : hasRow s.db (form.Get "name") = true := hasRow_eq_true.2 ⟨url0, hrow⟩
  have hadd := addLink_of_taken st url htaken
  refine ⟨by rw [hadd]; simp, by rw [hadd], by rw [hadd]; exact getLink_of_mem hpk hrow,
    ?_, ?_, ?_, ?_⟩
  · by_cases he : form.Get "url" = "" ∨ form.Get "name" = ""
    · simp [handler, hpath, hmeth, hform, htok, he, Response.WriteHeader, Response.Write,
        Response.empty]
    · simp [handler, hpath, hmeth, hform, htok, he,
        addLink_of_taken env.storage (form.Get "url") htaken, Response.WriteHeader,
        Response.Write, Response.empty]
  · by_cases he : form.Get "url" = "" ∨ form.Get "name" = ""
    · simp [handler, hpath, hmeth, hform, htok, he]
    · simp [handler, hpath, hmeth, hform, htok, he,
        addLink_of_taken env.storage (form.Get "url") htaken]
  · intro hu hn
    have he : ¬ (form.Get "url" = "" ∨ form.Get "name" = "") := by
      exact not_or.2 ⟨hu, hn⟩
    simp [handler, hpath, hmeth, hform, htok, he,
      addLink_of_taken env.storage (form.Get "url") htaken, Response.WriteHeader,
      Response.Write, Response.empty]
  · intro he
    have he2 : form.Get "url" = "" ∨ form.Get "name" = "" := he
    simp [handler, hpath, hmeth, hform, htok, he2, Response.WriteHeader, Response.Write,
      Response.empty]

/-- Witness of C5, amended: the name foo is taken; a second submission of foo
with another url is answered 500 and the first url stays. -/
theorem duplicate_name_rejected_witness :
    (addLink Storage.up [("foo", "http://a.example")] "foo" "http://b.example").1 ≠ none ∧
      (handler ⟨none, Storage.up⟩ ⟨[("t1", true)], [("foo", "http://a.example")]⟩
        ⟨"/add", "POST", some [("url", ["http://b.example"]), ("name", ["foo"]),
          ("csrftoken", ["t1"])]⟩).res.status = 500 ∧
      (handler ⟨none, Storage.up⟩ ⟨[("t1", true)], [("foo", "http://a.example")]⟩
        ⟨"/add", "POST", some [("url", ["http://b.example"]), ("name", ["foo"]),
          ("csrftoken", ["t1"])]⟩).state.db = [("foo", "http://a.example")] :=
  have h := duplicate_name_rejected Storage.up ⟨none, Storage.up⟩
    ⟨[("t1", true)], [("foo", "http://a.example")]⟩
    ⟨"/add", "POST", some [("url", ["http://b.example"]), ("name", ["foo"]),
      ("csrftoken", ["t1"])]⟩
    [("url", ["http://b.example"]), ("name", ["foo"]), ("csrftoken", ["t1"])]
    "foo" "http://a.example" "http://b.example"
    (by decide) (by decide) rfl rfl rfl (by decide) (by decide)
  ⟨h.1, h.2.2.2.2.2.1 (by decide) (by decide), h.2.2.2.2.1⟩

/-! ## Lookup and redirect -/

theorem handler_lookup (env : Env) (s : State) (req : Request)
    (hadd : req.Path ≠ "/add") (hfav : req.Path ≠ "/favicon.ico") :
    handler env s req =
      match getLink env.storage s.db (TrimPrefix req.Path "/") with
      | (_, some err, lg) =>
          ⟨s, ⟨[], 500, "error retrieving link"⟩,
            [LogLine.handling req.Path, LogLine.fetching] ++ lg ++
              [LogLine.retrieveError err]⟩
      | (linkUrl, none, lg) =>
          if linkUrl = "" then
            ⟨s, ⟨[], 404, "link not found"⟩,
              [LogLine.handling req.Path, LogLine.fetching] ++ lg⟩
          else
            ⟨s, ⟨[("Location", linkUrl)], 301, ""⟩,
              [LogLine.handling req.Path, LogLine.fetching] ++ lg ++
                [LogLine.redirecting linkUrl (TrimPrefix req.Path "/")]⟩ := by
  simp only [handler, hadd, hfav, if_false]
  rfl

/-! ## What one request does to the state -/

theorem generateToken_some (bytes : List Nat) :
    generateToken (some bytes) =
      (EncodeToString ((List.range 32).map (fun i => bytes.getD i 0 % 256)), none) := by
  simp [generateToken, randRead]

theorem generateToken_cases (src : Option (List Nat)) :
    (∃ err, generateToken src = ("", some err)) ∨ ∃ t, generateToken src = (t, none) := by
  cases src with
  | none => exact Or.inl ⟨GoError.randUnavailable, by simp [generateToken, randRead]⟩
  | some bytes => exact Or.inr ⟨_, generateToken_some bytes⟩

theorem handler_get_add (env : Env) (s : State) (req : Request) (t : String)
    (hpath : req.Path = "/add") (hmeth : req.Method = "GET")
    (hgen : generateToken env.rand = (t, none)) :
    handler env s req =
      ⟨⟨s.csrfTokens.set t true, s.db⟩,
        ⟨[("Content-Type", "text/html")], 200, indexPageWithCsrfToken t⟩,
        [LogLine.handling "/add"]⟩ := by
  simp [handler, hpath, hmeth, hgen, Response.WriteHeader, Response.Write, Response.Set,
    Response.empty]

theorem handler_post_added (env : Env) (s : State) (req : Request) (form : Values)
    (hpath : req.Path = "/add") (hmeth : req.Method = "POST")
    (hform : req.PostForm = some form)
    (htok : s.csrfTokens.get (form.Get "csrftoken") = true)
    (hurl : form.Get "url" ≠ "") (hname : form.Get "name" ≠ "")
    (hfree : hasRow s.db (form.Get "name") = false) (hup : env.storage = Storage.up) :
    handler env s req =
      ⟨⟨s.csrfTokens.delete (form.Get "csrftoken"),
          s.db ++ [(form.Get "name", form.Get "url")]⟩,
        ⟨[], 200, "added link"⟩,
        [LogLine.handling "/add", LogLine.addingLink (form.Get "name") (form.Get "url")]⟩ := by
  simp [handler, hpath, hmeth, hform, htok, hurl, hname, hup,
    addLink_of_free (form.Get "url") hfree, Response.WriteHeader, Response.Write,
    Response.empty]

theorem handler_tokens_cases (env : Env) (s : State) (req : Request) :
    (handler env s req).state.csrfTokens = s.csrfTokens ∨
      (∃ t, issues t ⟨env, req⟩ ∧
        (handler env s req).state.csrfTokens = s.csrfTokens.set t true) ∨
      (∃ t, carries t ⟨env, req⟩ ∧
        (handler env s req).state.csrfTokens = s.csrfTokens.delete t) := by
  by_cases hfav : req.Path = "/favicon.ico"
  · left; simp [handler, hfav]
  by_cases hadd : req.Path = "/add"
  · by_cases hget : req.Method = "GET"
    · rcases generateToken_cases env.rand with ⟨err, hg⟩ | ⟨t, hg⟩
      · left; simp [handler, hadd, hget, hg]
      · right; left
        exact ⟨t, ⟨hadd, hget, hg⟩, by rw [handler_get_add env s req t hadd hget hg]⟩
    · by_cases hpost : req.Method = "POST"
      · cases hform : req.PostForm with
        | none => left; simp [handler, hadd, hpost, hform]
        | some form =>
          cases htok : s.csrfTokens.get (form.Get "csrftoken") with
          | false =>
            left; rw [handler_post_invalid env s req form hadd hpost hform htok]
          | true =>
            right; right
            exact ⟨form.Get "csrftoken", ⟨hadd, hpost, by simp [hform]⟩,
              handler_post_valid_tokens env s req form hadd hpost hform htok⟩
      · left; simp [handler, hadd, hget, hpost]
  · left
    rw [handler_lookup env s req hadd hfav]
    rcases getLink env.storage s.db (TrimPrefix req.Path "/") with ⟨u, _ | err, lg⟩
    · by_cases hu : u = "" <;> simp [hu]
    · simp

theorem handler_db_cases (env : Env) (s : State) (req : Request) :
    (handler env s req).state.db = s.db ∨
      ∃ name url, hasRow s.db name = false ∧ name ≠ "" ∧ url ≠ "" ∧
        (handler env s req).state.db = s.db ++ [(name, url)] := by
  by_cases hfav : req.Path = "/favicon.ico"
  · left; simp [handler, hfav]
  by_cases hadd : req.Path = "/add"
  · by_cases hget : req.Method = "GET"
    · rcases generateToken_cases env.rand with ⟨err, hg⟩ | ⟨t, hg⟩
      · left; simp [handler, hadd, hget, hg]
      · left; rw [handler_get_add env s req t hadd hget hg]
    · by_cases hpost : req.Method = "POST"
      · cases hform : req.PostForm with
        | none => left; simp [handler, hadd, hpost, hform]
        | some form =>
          cases htok : s.csrfTokens.get (form.Get "csrftoken") with
          | false =>
            left; rw [handler_post_invalid env s req form hadd hpost hform htok]
          | true =>
            by_cases he : form.Get "url" = "" ∨ form.Get "name" = ""
            · left; simp [handler, hadd, hpost, hform, htok, he]
            · have he2 := not_or.1 he
              cases hup : env.storage with
              | down =>
                left
                simp [handler, hadd, hpost, hform, htok, he, hup, addLink, execInsert]
              | failsOnStep =>
                left
                simp [handler, hadd, hpost, hform, htok, he, hup, addLink, execInsert]
              | up =>
                cases hrow : hasRow s.db (form.Get "name") with
                | true =>
                  left
                  simp [handler, hadd, hpost, hform, htok, he, hup, addLink, execInsert, hrow]
                | false =>
                  right
                  refine ⟨form.Get "name", form.Get "url", hrow, he2.2, he2.1, ?_⟩
                  rw [handler_post_added env s req form hadd hpost hform htok he2.1 he2.2
                    hrow hup]
      · left; simp [handler, hadd, hget, hpost]
  · left
    rw [handler_lookup env s req hadd hfav]
    rcases getLink env.storage s.db (TrimPrefix req.Path "/") with ⟨u, _ | err, lg⟩
    · by_cases hu : u = "" <;> simp [hu]
    · simp

/-! ## Single use of tokens -/

theorem step_keeps_valid (s : State) (i : Input) (t : String)
    (hv : s.csrfTokens.get t = true) (hn : ¬ carries t i) :
    (step s i).csrfTokens.get t = true := by
  obtain ⟨env, req⟩ := i
  rcases handler_tokens_cases env s req with h | ⟨t2, _, h⟩ | ⟨t2, hc, h⟩
  · simpa [step, h] using hv
  · by_cases ht : t = t2
    · subst ht; simp [step, h, GoMap.get_set_self]
    · simpa [step, h, GoMap.get_set_ne _ _ ht] using hv
  · have ht : t ≠ t2 := by
      intro ht; subst ht; exact hn hc
    simpa [step, h, GoMap.get_delete_ne _ ht] using hv

theorem step_keeps_absent (s : State) (i : Input) (t : String)
    (hv : s.csrfTokens.get t = false) (hn : ¬ issues t i) :
    (step s i).csrfTokens.get t = false := by
  obtain ⟨env, req⟩ := i
  rcases handler_tokens_cases env s req with h | ⟨t2, hi, h⟩ | ⟨t2, _, h⟩
  · simpa [step, h] using hv
  · have ht : t ≠ t2 := by
      intro ht; subst ht; exact hn hi
    simpa [step, h, GoMap.get_set_ne _ _ ht] using hv
  · by_cases ht : t = t2
    · subst ht; simp [step, h, GoMap.get_delete_self]
    · simpa [step, h, GoMap.get_delete_ne _ ht] using hv

theorem run_keeps_valid (is : List Input) (s : State) (t : String)
    (hv : s.csrfTokens.get t = true) (hn : ∀ i ∈ is, ¬ carries t i) :
    (run s is).csrfTokens.get t = true := by
  induction is generalizing s with
  | nil => exact hv
  | cons i is ih =>
    exact ih (step s i) (step_keeps_valid s i t hv (hn i (List.mem_cons_self _ _)))
      (fun j hj => hn j (List.mem_cons_of_mem _ hj))

theorem run_keeps_absent (is : List Input) (s : State) (t : String)
    (hv : s.csrfTokens.get t = false) (hn : ∀ i ∈ is, ¬ issues t i) :
    (run s is).csrfTokens.get t = false := by
  induction is generalizing s with
  | nil => exact hv
  | cons i is ih =>
    exact ih (step s i) (step_keeps_absent s i t hv (hn i (List.mem_cons_self _ _)))
      (fun j hj => hn j (List.mem_cons_of_mem _ hj))

theorem carries_form {t : String} {i : Input} (h : carries t i) :
    i.req.Path = "/add" ∧ i.req.Method = "POST" ∧
      ∃ form, i.req.PostForm = some form ∧ form.Get "csrftoken" = t := by
  obtain ⟨hp, hm, hf⟩ := h
  refine ⟨hp, hm, ?_⟩
  cases hpf : i.req.PostForm with
  | none => simp [hpf] at hf
  | some form => exact ⟨form, rfl, by simpa [hpf] using hf⟩

/-- C1: anti-forgery tokens are single use.  From every handler state, let a GET
/add issue the token t.  After any requests among which none is a POST /add
carrying t, the token is still in the registry and the first POST /add carrying
t passes the token check: it is not answered "invalid csrf token".  After that
POST and any further requests among which no GET /add issues t again, every
POST /add carrying t is answered with status 400 and body "invalid csrf token". -/
theorem token_single_use (s : State) (g : Input) (t : String) (hissue : issues t g)
    (before : List Input) (hbefore : ∀ i ∈ before, ¬ carries t i)
    (first : Input) (hfirst : carries t first)
    (between : List Input) (hbetween : ∀ i ∈ between, ¬ issues t i)
    (again : Input) (hagain : carries t again) :
    (step s g).csrfTokens.get t = true ∧
      (handler first.env (run (step s g) before) first.req).res.body ≠
        "invalid csrf token" ∧
      (handler again.env (run (step (run (step s g) before) first) between)
        again.req).res.status = 400 ∧
      (handler again.env (run (step (run (step s g) before) first) between)
        again.req).res.body = "invalid csrf token" := by
  have h0 : (step s g).csrfTokens.get t = true := by
    obtain ⟨hp, hm, hg⟩ := hissue
    rw [step, handler_get_add g.env s g.req t hp hm hg]
    exact GoMap.get_set_self _ _ _
  have h1 := run_keeps_valid before (step s g) t h0 hbefore
  obtain ⟨hp1, hm1, form1, hf1, ht1⟩ := carries_form hfirst
  obtain ⟨hp2, hm2, form2, hf2, ht2⟩ := carries_form hagain
  have h2 : (step (run (step s g) before) first).csrfTokens.get t = false := by
    rw [step, handler_post_valid_tokens first.env _ first.req form1 hp1 hm1 hf1
      (by rw [ht1]; exact h1), ht1]
    exact GoMap.get_delete_self _ _
  have h3 := run_keeps_absent between _ t h2 hbetween
  refine ⟨h0, ?_, ?_, ?_⟩
  · exact handler_post_valid_body first.env _ first.req form1 hp1 hm1 hf1
      (by rw [ht1]; exact h1)
  · rw [handler_post_invalid again.env _ again.req form2 hp2 hm2 hf2 (by rw [ht2]; exact h3)]
  · rw [handler_post_invalid again.env _ again.req form2 hp2 hm2 hf2 (by rw [ht2]; exact h3)]

/-- Witness of C1: the token made of the bytes 0..31 is issued to an empty
registry; a lookup and another GET /add come in between; the first POST with the
token adds the link foo, and the second POST with it is answered 400. -/
theorem token_single_use_witness :
    issues "AAECAwQFBgcICQoLDA0ODxAREhMUFRYXGBkaGxwdHh8="
        ⟨⟨some (List.range 32), Storage.up⟩, ⟨"/add", "GET", none⟩⟩ ∧
      (handler ⟨none, Storage.up⟩
        (run (step ⟨[], []⟩ ⟨⟨some (List.range 32), Storage.up⟩, ⟨"/add", "GET", none⟩⟩)
          [⟨⟨none, Storage.up⟩, ⟨"/foo", "GET", none⟩⟩,
            ⟨⟨some [1, 2, 3], Storage.up⟩, ⟨"/add", "GET", none⟩⟩])
        ⟨"/add", "POST", some [("url", ["http://example.com"]), ("name", ["foo"]),
          ("csrftoken", ["AAECAwQFBgcICQoLDA0ODxAREhMUFRYXGBkaGxwdHh8="])]⟩).res.body ≠
        "invalid csrf token" ∧
      (handler ⟨none, Storage.up⟩
        (run (step
          (run (step ⟨[], []⟩ ⟨⟨some (List.range 32), Storage.up⟩, ⟨"/add", "GET", none⟩⟩)
            [⟨⟨none, Storage.up⟩, ⟨"/foo", "GET", none⟩⟩,
              ⟨⟨some [1, 2, 3], Storage.up⟩, ⟨"/add", "GET", none⟩⟩])
          ⟨⟨none, Storage.up⟩, ⟨"/add", "POST", some [("url", ["http://example.com"]),
            ("name", ["foo"]),
            ("csrftoken", ["AAECAwQFBgcICQoLDA0ODxAREhMUFRYXGBkaGxwdHh8="])]⟩⟩)
          [⟨⟨none, Storage.up⟩, ⟨"/foo", "GET", none⟩⟩])
        ⟨"/add", "POST", some [("url", ["http://other.example"]), ("name", ["bar"]),
          ("csrftoken", ["AAECAwQFBgcICQoLDA0ODxAREhMUFRYXGBkaGxwdHh8="])]⟩).res.status =
        400 :=
  have h := token_single_use ⟨[], []⟩
    ⟨⟨some (List.range 32), Storage.up⟩, ⟨"/add", "GET", none⟩⟩
    "AAECAwQFBgcICQoLDA0ODxAREhMUFRYXGBkaGxwdHh8=" (by decide)
    [⟨⟨none, Storage.up⟩, ⟨"/foo", "GET", none⟩⟩,
      ⟨⟨some [1, 2, 3], Storage.up⟩, ⟨"/add", "GET", none⟩⟩] (by decide)
    ⟨⟨none, Storage.up⟩, ⟨"/add", "POST", some [("url", ["http://example.com"]),
      ("name", ["foo"]),
      ("csrftoken", ["AAECAwQFBgcICQoLDA0ODxAREhMUFRYXGBkaGxwdHh8="])]⟩⟩ (by decide)
    [⟨⟨none, Storage.up⟩, ⟨"/foo", "GET", none⟩⟩] (by decide)
    ⟨⟨none, Storage.up⟩, ⟨"/add", "POST", some [("url", ["http://other.example"]),
      ("name", ["bar"]),
      ("csrftoken", ["AAECAwQFBgcICQoLDA0ODxAREhMUFRYXGBkaGxwdHh8="])]⟩⟩ (by decide)
  ⟨by decide, h.2.1, h.2.2.1⟩

/-! ## Links are immutable -/

theorem primaryKey_append {db : Links} {name : String} (url : String)
    (hpk : PrimaryKey db) (hfree : hasRow db name = false) :
    PrimaryKey (db ++ [(name, url)]) := by
  have hnot : name ∉ db.map Prod.fst := by
    intro hm
    obtain ⟨r, hr, hname⟩ := List.mem_map.1 hm
    exact hasRow_eq_false.1 hfree r hr hname
  unfold PrimaryKey
  rw [List.map_append, List.nodup_append]
  refine ⟨hpk, by simp, ?_⟩
  intro a ha hb
  have : a = name := by simpa using hb
  exact hnot (this ▸ ha)

theorem primaryKey_url_unique {db : Links} {name url url2 : String} (hpk : PrimaryKey db)
    (h1 : (name, url) ∈ db) (h2 : (name, url2) ∈ db) : url2 = url := by
  have e1 := filter_name_of_mem hpk h1
  have e2 := filter_name_of_mem hpk h2
  rw [e1] at e2
  simpa using e2.symm

theorem step_db (s : State) (i : Input) :
    (∀ r ∈ s.db, r ∈ (step s i).db) ∧ (PrimaryKey s.db → PrimaryKey (step s i).db) := by
  obtain ⟨env, req⟩ := i
  rcases handler_db_cases env s req with h | ⟨name, url, hfree, _, _, h⟩
  · simp only [step, h]
    exact ⟨fun r hr => hr, fun hpk => hpk⟩
  · simp only [step, h]
    exact ⟨fun r hr => List.mem_append_left _ hr, fun hpk => primaryKey_append url hpk hfree⟩

theorem run_db (is : List Input) (s : State) :
    (∀ r ∈ s.db, r ∈ (run s is).db) ∧ (PrimaryKey s.db → PrimaryKey (run s is).db) := by
  induction is generalizing s with
  | nil => exact ⟨fun r hr => hr, fun hpk => hpk⟩
  | cons i is ih =>
    have h1 := step_db s i
    have h2 := ih (step s i)
    exact ⟨fun r hr => h2.1 r (h1.1 r hr), fun hpk => h2.2 (h1.2 hpk)⟩

/-- C8: links are immutable through the handler.  For every handler state whose
table satisfies its primary key, and every request (any path, method, form and
environment): every row (name, url) of the table before the request is in the
table after it, name has no other url there, and the table still satisfies its
primary key, so that it never holds two rows with the same name.  The same holds
across every sequence of requests, after which getLink of name still returns
url. -/
theorem links_immutable (s : State) (hpk : PrimaryKey s.db) (env : Env) (req : Request)
    (is : List Input) (name url : String) (hrow : (name, url) ∈ s.db) :
    ((name, url) ∈ (handler env s req).state.db ∧
        (∀ url2, (name, url2) ∈ (handler env s req).state.db → url2 = url) ∧
        PrimaryKey (handler env s req).state.db) ∧
      ((name, url) ∈ (run s is).db ∧
        (∀ url2, (name, url2) ∈ (run s is).db → url2 = url) ∧
        PrimaryKey (run s is).db ∧
        getLink Storage.up (run s is).db name = (url, none, [LogLine.fetchingLink name])) := by
  have h1 := step_db s ⟨env, req⟩
  have h2 := run_db is s
  refine ⟨⟨h1.1 _ hrow, ?_, h1.2 hpk⟩, h2.1 _ hrow, ?_, h2.2 hpk, ?_⟩
  · intro url2 hm
    exact primaryKey_url_unique (h1.2 hpk) (h1.1 _ hrow) hm
  · intro url2 hm
    exact primaryKey_url_unique (h2.2 hpk) (h2.1 _ hrow) hm
  · exact getLink_of_mem (h2.2 hpk) (h2.1 _ hrow)

/-- Witness of C8: the link foo survives an attempt to add foo again with
another url, and the addition of bar. -/
theorem links_immutable_witness :
    (run ⟨[("t1", true), ("t2", true)], [("foo", "http://example.com")]⟩
        [⟨⟨none, Storage.up⟩, ⟨"/add", "POST", some [("url", ["http://other.example"]),
            ("name", ["foo"]), ("csrftoken", ["t1"])]⟩⟩,
          ⟨⟨none, Storage.up⟩, ⟨"/add", "POST", some [("url", ["http://bar.example"]),
            ("name", ["bar"]), ("csrftoken", ["t2"])]⟩⟩]).db =
        [("foo", "http://example.com"), ("bar", "http://bar.example")] ∧
      getLink Storage.up
        (run ⟨[("t1", true), ("t2", true)], [("foo", "http://example.com")]⟩
          [⟨⟨none, Storage.up⟩, ⟨"/add", "POST", some [("url", ["http://other.example"]),
              ("name", ["foo"]), ("csrftoken", ["t1"])]⟩⟩,
            ⟨⟨none, Storage.up⟩, ⟨"/add", "POST", some [("url", ["http://bar.example"]),
              ("name", ["bar"]), ("csrftoken", ["t2"])]⟩⟩]).db "foo" =
        ("http://example.com", none, [LogLine.fetchingLink "foo"]) :=
  have h := links_immutable ⟨[("t1", true), ("t2", true)], [("foo", "http://example.com")]⟩
    (by decide) ⟨none, Storage.up⟩ ⟨"/foo", "GET", none⟩
    [⟨⟨none, Storage.up⟩, ⟨"/add", "POST", some [("url", ["http://other.example"]),
        ("name", ["foo"]), ("csrftoken", ["t1"])]⟩⟩,
      ⟨⟨none, Storage.up⟩, ⟨"/add", "POST", some [("url", ["http://bar.example"]),
        ("name", ["bar"]), ("csrftoken", ["t2"])]⟩⟩]
    "foo" "http://example.com" (by decide)
  ⟨by decide, h.2.2.2.2⟩

/-! ## End to end -/

set_option maxRecDepth 100000 in
theorem indexPage_hiddenField (token : String) :
    indexPageWithCsrfToken token = pageBeforeField ++ hiddenField token ++ pageAfterField := by
  have h1 : pageHead =
      pageBeforeField ++ "<input type=\"hidden\" name=\"csrftoken\" value=\"" := by decide
  have h2 : pageTail = "\">" ++ pageAfterField := by decide
  simp only [indexPageWithCsrfToken, hiddenField, h1, h2, String.append_assoc]

theorem lookup_path_ne {name : String} (hna : name ≠ "add") (hnf : name ≠ "favicon.ico") :
    "/" ++ name ≠ "/add" ∧ "/" ++ name ≠ "/favicon.ico" := by
  constructor
  · intro h
    exact hna (slash_append_inj (h.trans (by decide : "/add" = "/" ++ "add")))
  · intro h
    exact hnf (slash_append_inj (h.trans (by decide : "/favicon.ico" = "/" ++ "favicon.ico")))

/-- C7: end-to-end add then redirect.  For every handler state, every non-empty
url and every non-empty name other than add and favicon.ico that has no row in
the table: a GET /add for which the random source delivers is answered 200 with
the form page, whose hidden csrftoken field has the issued token as its value;
the POST /add with that name, url and token is then answered 200, absent a
storage failure, and the row (name, url) is in the table; the GET /name that
follows is answered 301 with Location equal to url. -/
theorem add_then_redirect (s : State) (bytes : List Nat) (st1 : Storage)
    (rand2 rand3 : Option (List Nat)) (form1 form3 : Option Values) (form : Values)
    (name url : String) (hname : name ≠ "") (hurl : url ≠ "")
    (hfree : hasRow s.db name = false) (hna : name ≠ "add") (hnf : name ≠ "favicon.ico")
    (hfn : form.Get "name" = name) (hfu : form.Get "url" = url)
    (hft : form.Get "csrftoken" = (generateToken (some bytes)).1) :
    (handler ⟨some bytes, st1⟩ s ⟨"/add", "GET", form1⟩).res.status = 200 ∧
      (handler ⟨some bytes, st1⟩ s ⟨"/add", "GET", form1⟩).res.body =
        pageBeforeField ++ hiddenField (generateToken (some bytes)).1 ++ pageAfterField ∧
      (handler ⟨rand2, Storage.up⟩ (step s ⟨⟨some bytes, st1⟩, ⟨"/add", "GET", form1⟩⟩)
        ⟨"/add", "POST", some form⟩).res.status = 200 ∧
      (name, url) ∈
        (step (step s ⟨⟨some bytes, st1⟩, ⟨"/add", "GET", form1⟩⟩)
          ⟨⟨rand2, Storage.up⟩, ⟨"/add", "POST", some form⟩⟩).db ∧
      (handler ⟨rand3, Storage.up⟩
        (step (step s ⟨⟨some bytes, st1⟩, ⟨"/add", "GET", form1⟩⟩)
          ⟨⟨rand2, Storage.up⟩, ⟨"/add", "POST", some form⟩⟩)
        ⟨"/" ++ name, "GET", form3⟩).res.status = 301 ∧
      (handler ⟨rand3, Storage.up⟩
        (step (step s ⟨⟨some bytes, st1⟩, ⟨"/add", "GET", form1⟩⟩)
          ⟨⟨rand2, Storage.up⟩, ⟨"/add", "POST", some form⟩⟩)
        ⟨"/" ++ name, "GET", form3⟩).res.Get "Location" = url := by
  have hg : generateToken (some bytes) = ((generateToken (some bytes)).1, none) := by
    rw [generateToken_some]
  have e1 := handler_get_add ⟨some bytes, st1⟩ s ⟨"/add", "GET", form1⟩ _ rfl rfl hg
  have hs1 : step s ⟨⟨some bytes, st1⟩, ⟨"/add", "GET", form1⟩⟩ =
      ⟨s.csrfTokens.set (generateToken (some bytes)).1 true, s.db⟩ := by
    rw [step, e1]
  subst hfn hfu
  have e2 := handler_post_added ⟨rand2, Storage.up⟩
    ⟨s.csrfTokens.set (generateToken (some bytes)).1 true, s.db⟩
    ⟨"/add", "POST", some form⟩ form rfl rfl rfl
    (by rw [hft]; exact GoMap.get_set_self _ _ _) hurl hname hfree rfl
  have hs2 : step ⟨s.csrfTokens.set (generateToken (some bytes)).1 true, s.db⟩
      ⟨⟨rand2, Storage.up⟩, ⟨"/add", "POST", some form⟩⟩ =
      ⟨(s.csrfTokens.set (generateToken (some bytes)).1 true).delete (form.Get "csrftoken"),
        s.db ++ [(form.Get "name", form.Get "url")]⟩ := by
    rw [step, e2]
  have hne := lookup_path_ne hna hnf
  have e3 := handler_lookup ⟨rand3, Storage.up⟩
    ⟨(s.csrfTokens.set (generateToken (some bytes)).1 true).delete (form.Get "csrftoken"),
      s.db ++ [(form.Get "name", form.Get "url")]⟩
    ⟨"/" ++ form.Get "name", "GET", form3⟩ hne.1 hne.2
  simp only [TrimPrefix_slash, getLink_of_append hfree, if_neg hurl] at e3
  rw [hs1, hs2, e1, e2, e3, indexPage_hiddenField]
  simp [Response.Get, List.lookup_cons]

/-- Witness of C7: the example of the specification, name foo and url
http://example.com, from the empty state, with the token made of the bytes
0..31. -/
theorem add_then_redirect_witness :
    (handler ⟨some (List.range 32), Storage.up⟩ ⟨[], []⟩ ⟨"/add", "GET", none⟩).res.status = 200 ∧
      (handler ⟨none, Storage.up⟩
        (step ⟨[], []⟩ ⟨⟨some (List.range 32), Storage.up⟩, ⟨"/add", "GET", none⟩⟩)
        ⟨"/add", "POST", some [("name", ["foo"]), ("url", ["http://example.com"]),
          ("csrftoken", ["AAECAwQFBgcICQoLDA0ODxAREhMUFRYXGBkaGxwdHh8="])]⟩).res.status =
        200 ∧
      (handler ⟨none, Storage.up⟩
        (step (step ⟨[], []⟩ ⟨⟨some (List.range 32), Storage.up⟩, ⟨"/add", "GET", none⟩⟩)
          ⟨⟨none, Storage.up⟩, ⟨"/add", "POST", some [("name", ["foo"]),
            ("url", ["http://example.com"]),
            ("csrftoken", ["AAECAwQFBgcICQoLDA0ODxAREhMUFRYXGBkaGxwdHh8="])]⟩⟩)
        ⟨"/" ++ "foo", "GET", none⟩).res.status = 301 ∧
      (handler ⟨none, Storage.up⟩
        (step (step ⟨[], []⟩ ⟨⟨some (List.range 32), Storage.up⟩, ⟨"/add", "GET", none⟩⟩)
          ⟨⟨none, Storage.up⟩, ⟨"/add", "POST", some [("name", ["foo"]),
            ("url", ["http://example.com"]),
            ("csrftoken", ["AAECAwQFBgcICQoLDA0ODxAREhMUFRYXGBkaGxwdHh8="])]⟩⟩)
        ⟨"/" ++ "foo", "GET", none⟩).res.Get "Location" = "http://example.com" :=
  have h := add_then_redirect ⟨[], []⟩ (List.range 32) Storage.up none none none none
    [("name", ["foo"]), ("url", ["http://example.com"]),
      ("csrftoken", ["AAECAwQFBgcICQoLDA0ODxAREhMUFRYXGBkaGxwdHh8="])]
    "foo" "http://example.com" (by decide) (by decide) (by decide) (by decide) (by decide)
    (by decide) (by decide) (by decide)
  ⟨h.1, h.2.2.1, h.2.2.2.2.1, h.2.2.2.2.2⟩

/-! ## The reserved paths -/

theorem handler_reserved (env : Env) (s : State) (req : Request)
    (hpath : req.Path = "/add" ∨ req.Path = "/favicon.ico") :
    (handler env s req).res.status ≠ 301 ∧
      ∀ l ∈ (handler env s req).log, l.isLookup = false := by
  by_cases hfav : req.Path = "/favicon.ico"
  · simp [handler, hfav, Response.WriteHeader, Response.empty, LogLine.isLookup]
  have hadd : req.Path = "/add" := hpath.resolve_right hfav
  by_cases hget : req.Method = "GET"
  · rcases generateToken_cases env.rand with ⟨err, hg⟩ | ⟨t, hg⟩
    · simp [handler, hadd, hget, hg, Response.WriteHeader, Response.empty, LogLine.isLookup]
    · rw [handler_get_add env s req t hadd hget hg]
      simp [LogLine.isLookup]
  · by_cases hpost : req.Method = "POST"
    · cases hform : req.PostForm with
      | none =>
        simp [handler, hadd, hpost, hform, Response.WriteHeader, Response.Write,
          Response.empty, LogLine.isLookup]
      | some form =>
        cases htok : s.csrfTokens.get (form.Get "csrftoken") with
        | false =>
          rw [handler_post_invalid env s req form hadd hpost hform htok]
          simp [LogLine.isLookup]
        | true =>
          by_cases he : form.Get "url" = "" ∨ form.Get "name" = ""
          · simp [handler, hadd, hpost, hform, htok, he, Response.WriteHeader,
              Response.Write, Response.empty, LogLine.isLookup]
          · rcases hal : addLink env.storage s.db (form.Get "name") (form.Get "url") with
              ⟨_ | err, db⟩ <;>
            simp [handler, hadd, hpost, hform, htok, he, hal, Response.WriteHeader,
              Response.Write, Response.empty, LogLine.isLookup]
    · simp [handler, hadd, hget, hpost, Response.WriteHeader, Response.Write,
        Response.empty, LogLine.isLookup]

/-- C10: the names add and favicon.ico can be stored but never redirect.  A POST
/add with a valid token, a non-empty url and the name add or favicon.ico, the
name being unused, is answered 200, absent a storage failure, and inserts the
row.  Yet for every handler state, the one after that insert included, and every
request to the path /add or /favicon.ico: the status is not 301 and getLink is
not called (its log line is absent); /favicon.ico is answered 404, and GET /add
is answered 200 with the form page when the random source delivers. -/
theorem reserved_names_never_redirect (s : State) (env : Env) (form : Values)
    (name : String) (hres : name = "add" ∨ name = "favicon.ico")
    (htok : s.csrfTokens.get (form.Get "csrftoken") = true)
    (hurl : form.Get "url" ≠ "") (hname : form.Get "name" = name)
    (hfree : hasRow s.db name = false) (hup : env.storage = Storage.up) :
    ((handler env s ⟨"/add", "POST", some form⟩).res.status = 200 ∧
        (handler env s ⟨"/add", "POST", some form⟩).state.db =
          s.db ++ [(name, form.Get "url")]) ∧
      (∀ (s2 : State) (env2 : Env) (req : Request),
        req.Path = "/add" ∨ req.Path = "/favicon.ico" →
        (handler env2 s2 req).res.status ≠ 301 ∧
          ∀ l ∈ (handler env2 s2 req).log, l.isLookup = false) ∧
      (∀ (s2 : State) (env2 : Env) (req : Request), req.Path = "/favicon.ico" →
        (handler env2 s2 req).res.status = 404 ∧ (handler env2 s2 req).state = s2) ∧
      (∀ (s2 : State) (bytes : List Nat) (st : Storage) (req : Request),
        req.Path = "/add" → req.Method = "GET" →
        (handler ⟨some bytes, st⟩ s2 req).res.status = 200 ∧
          (handler ⟨some bytes, st⟩ s2 req).res.body =
            indexPageWithCsrfToken (generateToken (some bytes)).1) := by
  subst hname
  have hne : form.Get "name" ≠ "" := by
    rcases hres with h | h <;> rw [h] <;> decide
  refine ⟨?_, fun s2 env2 req hp => handler_reserved env2 s2 req hp, ?_, ?_⟩
  · rw [handler_post_added env s ⟨"/add", "POST", some form⟩ form rfl rfl rfl htok hurl hne
      hfree hup]
    exact ⟨rfl, rfl⟩
  · intro s2 env2 req hp
    simp [handler, hp, Response.WriteHeader, Response.empty]
  · intro s2 bytes st req hp hm
    have hg : generateToken (some bytes) = ((generateToken (some bytes)).1, none) := by
      rw [generateToken_some]
    rw [handler_get_add ⟨some bytes, st⟩ s2 req _ hp hm hg]
    exact ⟨rfl, rfl⟩

/-- Witness of C10: the name add is stored with the valid token t1, and a
request for /add on the table that holds rows for add and favicon.ico is not a
redirect. -/
theorem reserved_names_never_redirect_witness :
    (handler ⟨none, Storage.up⟩ ⟨[("t1", true)], [("favicon.ico", "http://f.example")]⟩
        ⟨"/add", "POST", some [("url", ["http://example.com"]), ("name", ["add"]),
          ("csrftoken", ["t1"])]⟩).state.db =
        [("favicon.ico", "http://f.example"), ("add", "http://example.com")] ∧
      (handler ⟨none, Storage.up⟩
        ⟨[], [("favicon.ico", "http://f.example"), ("add", "http://example.com")]⟩
        ⟨"/add", "DELETE", none⟩).res.status ≠ 301 ∧
      (handler ⟨none, Storage.up⟩
        ⟨[], [("favicon.ico", "http://f.example"), ("add", "http://example.com")]⟩
        ⟨"/favicon.ico", "GET", none⟩).res.status = 404 :=
  have h := reserved_names_never_redirect
    ⟨[("t1", true)], [("favicon.ico", "http://f.example")]⟩ ⟨none, Storage.up⟩
    [("url", ["http://example.com"]), ("name", ["add"]), ("csrftoken", ["t1"])]
    "add" (Or.inl rfl) (by decide) (by decide) (by decide) (by decide) rfl
  ⟨h.1.2,
    (h.2.1 ⟨[], [("favicon.ico", "http://f.example"), ("add", "http://example.com")]⟩
      ⟨none, Storage.up⟩ ⟨"/add", "DELETE", none⟩ (Or.inl rfl)).1,
    (h.2.2.1 ⟨[], [("favicon.ico", "http://f.example"), ("add", "http://example.com")]⟩
      ⟨none, Storage.up⟩ ⟨"/favicon.ico", "GET", none⟩ rfl).1⟩

/-! ## Lookup and redirect, on the tables the handler builds -/

theorem step_urls (s : State) (i : Input) (h : UrlsNonEmpty s.db) :
    UrlsNonEmpty (step s i).db := by
  obtain ⟨env, req⟩ := i
  rcases handler_db_cases env s req with e | ⟨name, url, _, _, hurl, e⟩
  · simpa only [step, e] using h
  · simp only [step, e]
    intro r hr
    rcases List.mem_append.1 hr with hr | hr
    · exact h r hr
    · have : r = (name, url) := by simpa using hr
      rw [this]; exact hurl

theorem run_urls (is : List Input) (s : State) (h : UrlsNonEmpty s.db) :
    UrlsNonEmpty (run s is).db := by
  induction is generalizing s with
  | nil => exact h
  | cons i is ih => exact ih (step s i) (step_urls s i h)

/-- A row whose url is the empty string, which the handler never inserts, reads
as "not found": getLink returns the empty url for it and the request is
answered 404.  This is why the lookup is stated for tables whose urls are
non-empty. -/
theorem lookup_empty_url_reads_not_found :
    (getLink Storage.up [("a", "")] "a").1 = "" ∧
      (handler ⟨none, Storage.up⟩ ⟨[], [("a", "")]⟩ ⟨"/a", "GET", none⟩).res.status = 404 := by
  decide

/-- A storage failure during a lookup: when db.Query returns an error the request
is answered 500; when the failure comes while the rows are read, getLink
returns the empty url without an error and the request is answered 404, also
for a name that has a row. -/
theorem lookup_under_storage_failure :
    (handler ⟨none, Storage.down⟩ ⟨[], [("foo", "http://example.com")]⟩
        ⟨"/foo", "GET", none⟩).res.status = 500 ∧
      getLink Storage.failsOnStep [("foo", "http://example.com")] "foo" =
        ("", none, [LogLine.fetchingLink "foo", LogLine.notFound]) ∧
      (handler ⟨none, Storage.failsOnStep⟩ ⟨[], [("foo", "http://example.com")]⟩
        ⟨"/foo", "GET", none⟩).res.status = 404 := by
  decide

/-- C6: lookup and redirect.  Absent a storage failure, for every link table,
that is, one that satisfies its primary key and whose urls are non-empty, as the
empty table does and as every request keeps it, and for every request path
/name other than /add and /favicon.ico: if the table has a row for name, the
response has status 301 and its Location header is the stored url; if the table
has no row for name, getLink returns the empty url without an error and the
response has status 404.  The lookup leaves the state as it is. -/
theorem lookup_redirect (env : Env) (s : State) (req : Request) (name : String)
    (hup : env.storage = Storage.up) (hpk : PrimaryKey s.db) (hurls : UrlsNonEmpty s.db)
    (hname : req.Path = "/" ++ name)
    (hadd : req.Path ≠ "/add") (hfav : req.Path ≠ "/favicon.ico") :
    (∀ url : String, (name, url) ∈ s.db →
        (handler env s req).res.status = 301 ∧
          (handler env s req).res.Get "Location" = url ∧
          (handler env s req).state = s) ∧
      (hasRow s.db name = false →
        (getLink env.storage s.db name).1 = "" ∧
          (getLink env.storage s.db name).2.1 = none ∧
          (handler env s req).res.status = 404 ∧ (handler env s req).state = s) ∧
      (PrimaryKey ([] : Links) ∧ UrlsNonEmpty ([] : Links)) ∧
      (∀ is : List Input, PrimaryKey (run s is).db ∧ UrlsNonEmpty (run s is).db) := by
  have htrim : TrimPrefix req.Path "/" = name := by rw [hname]; exact TrimPrefix_slash name
  rw [handler_lookup env s req hadd hfav, htrim, hup]
  refine ⟨?_, ?_, ⟨by decide, by decide⟩, fun is => ⟨(run_db is s).2 hpk, run_urls is s hurls⟩⟩
  · intro url hm
    have hne : url ≠ "" := hurls (name, url) hm
    rw [getLink_of_mem hpk hm]
    simp [hne, Response.Get, List.lookup_cons]
  · intro hfree
    rw [getLink_of_free hfree]
    simp

/-- Witness of C6: /foo redirects to the stored url. -/
theorem lookup_redirect_witness :
    (handler ⟨none, Storage.up⟩ ⟨[], [("foo", "http://example.com")]⟩
        ⟨"/foo", "GET", none⟩).res.status = 301 ∧
      (handler ⟨none, Storage.up⟩ ⟨[], [("foo", "http://example.com")]⟩
        ⟨"/foo", "GET", none⟩).res.Get "Location" = "http://example.com" :=
  have h := (lookup_redirect ⟨none, Storage.up⟩ ⟨[], [("foo", "http://example.com")]⟩
    ⟨"/foo", "GET", none⟩ "foo" rfl (by decide) (by decide) (by decide) (by decide)
    (by decide)).1 "http://example.com" (by decide)
  ⟨h.1, h.2.1⟩

end St
